import Mathlib

set_option linter.unusedVariables false

/-- JSON values as decoded by the JavaScript runtime from a response body. -/
inductive Json where
  | null : Json
  | bool (b : Bool) : Json
  | num (n : Int) : Json
  | str (s : String) : Json
  | arr (elems : List Json) : Json
  | obj (fields : List (String × Json)) : Json

/-- JavaScript truthiness of a decoded JSON value, as used by the
double-negation coercion in AboutClient.exists. -/
def Json.truthy : Json → Bool
  | Json.null => false
  | Json.bool b => b
  | Json.num n => n != 0
  | Json.str s => s != ("")
  | Json.arr _ => true
  | Json.obj _ => true

/-- Model of a settled HTTP response: the numeric status code together with
the settled outcomes of the two body readers of node-fetch, response.text and
response.json. An Except.error models a rejected promise from that reader. -/
structure HttpResponse where
  status : Nat
  text : Except String String
  json : Except String Json

/-- Model of response.ok of the fetch API: the status lies in the range from
200 inclusive to 300 exclusive. -/
def HttpResponse.ok (r : HttpResponse) : Bool :=
  decide (200 ≤ r.status) && decide (r.status < 300)

/-- Outcome of one fetch call: either the returned promise rejects with a
network-level error, or it resolves to a response. -/
inductive FetchOutcome where
  | netErr (e : String) : FetchOutcome
  | resp (r : HttpResponse) : FetchOutcome

/-- Errors a client operation can reject with: the library's own
GeoServerResponseError (a message plus the optional geoServerOutput field), a
runtime TypeError, or a non-classified JavaScript error (network failure,
rejected body-reader promise, and similar). -/
inductive JsError where
  | geoserver (message : String) (geoServerOutput : Option String) : JsError
  | typeError (msg : String) : JsError
  | other (e : String) : JsError
deriving DecidableEq

/-- Embeds the GeoServerResponseError constructor of src/util/geoserver.ts:
this.message becomes the given message, or the default text when the argument
is null, undefined or empty (the JavaScript or-fallback). -/
def mkGSError (message : Option String) (geoServerOutput : Option String) : JsError :=
  JsError.geoserver
    (match message with
     | none => ("GeoServer Response Error")
     | some m => if m == ("") then ("GeoServer Response Error") else m)
    geoServerOutput

/-- Embeds getGeoServerResponseText of src/util/geoserver.ts. The try block
returns the promise produced by response.text without awaiting it, so the
async function adopts that promise: producing the promise throws nothing
synchronously, hence the catch branch (which would resolve with undefined,
modelled as Option.none) can never run, and a rejected body read surfaces as a
rejection of getGeoServerResponseText itself. -/
def getGeoServerResponseText (r : HttpResponse) : Except String (Option String) :=
  match r.text with
  | Except.ok s => Except.ok (some s)
  | Except.error e => Except.error e

/-- Embeds AboutClient.getVersion (GET about/version.json): on a non-2xx
status, await the response text and throw a GeoServerResponseError with the
default message; on success, return the decoded JSON body. -/
def AboutClient.getVersion (f : FetchOutcome) : Except JsError Json :=
  match f with
  | FetchOutcome.netErr e => Except.error (JsError.other e)
  | FetchOutcome.resp r =>
    if r.ok then
      match r.json with
      | Except.ok v => Except.ok v
      | Except.error e => Except.error (JsError.other e)
    else
      match getGeoServerResponseText r with
      | Except.ok o => Except.error (mkGSError none o)
      | Except.error e => Except.error (JsError.other e)

/-- Embeds the existence probe AboutClient.exists (called checkExists in the
design document): await getVersion inside a try block and coerce the payload
to a boolean with a double negation; any thrown error is caught and turned
into false. -/
def AboutClient.checkExists (f : FetchOutcome) : Except JsError Bool :=
  match AboutClient.getVersion f with
  | Except.ok v => Except.ok (Json.truthy v)
  | Except.error _ => Except.ok false

/-- Embeds WorkspaceClient.get (GET workspaces/name.json): on a non-2xx
status, probe the server with AboutClient.exists and either resolve with
undefined (server reachable) or throw a GeoServerResponseError carrying the
response text (server unreachable). -/
def WorkspaceClient.get (name : String) (main probe : FetchOutcome) : Except JsError (Option Json) :=
  match main with
  | FetchOutcome.netErr e => Except.error (JsError.other e)
  | FetchOutcome.resp r =>
    if r.ok then
      match r.json with
      | Except.ok v => Except.ok (some v)
      | Except.error e => Except.error (JsError.other e)
    else
      match AboutClient.checkExists probe with
      | Except.error e => Except.error e
      | Except.ok true => Except.ok none
      | Except.ok false =>
        match getGeoServerResponseText r with
        | Except.ok o => Except.error (mkGSError none o)
        | Except.error e => Except.error (JsError.other e)

/-- Embeds NamespaceClient.get (GET namespaces/name.json), which follows the
same probe-on-failure pattern as WorkspaceClient.get. -/
def NamespaceClient.get (name : String) (main probe : FetchOutcome) : Except JsError (Option Json) :=
  match main with
  | FetchOutcome.netErr e => Except.error (JsError.other e)
  | FetchOutcome.resp r =>
    if r.ok then
      match r.json with
      | Except.ok v => Except.ok (some v)
      | Except.error e => Except.error (JsError.other e)
    else
      match AboutClient.checkExists probe with
      | Except.error e => Except.error e
      | Except.ok true => Except.ok none
      | Except.ok false =>
        match getGeoServerResponseText r with
        | Except.ok o => Except.error (mkGSError none o)
        | Except.error e => Except.error (JsError.other e)

/-- Embeds the private DatastoreClient.getStore (GET
workspaces/ws/storeType/storeName.json), which follows the same
probe-on-failure pattern as WorkspaceClient.get. -/
def DatastoreClient.getStore (workspace storeName storeType : String) (main probe : FetchOutcome) : Except JsError (Option Json) :=
  match main with
  | FetchOutcome.netErr e => Except.error (JsError.other e)
  | FetchOutcome.resp r =>
    if r.ok then
      match r.json with
      | Except.ok v => Except.ok (some v)
      | Except.error e => Except.error (JsError.other e)
    else
      match AboutClient.checkExists probe with
      | Except.error e => Except.error e
      | Except.ok true => Except.ok none
      | Except.ok false =>
        match getGeoServerResponseText r with
        | Except.ok o => Except.error (mkGSError none o)
        | Except.error e => Except.error (JsError.other e)

/-- Embeds the public wrapper DatastoreClient.getDataStore. -/
def DatastoreClient.getDataStore (workspace dataStore : String) (main probe : FetchOutcome) : Except JsError (Option Json) :=
  DatastoreClient.getStore workspace dataStore ("datastores") main probe

/-- Embeds the public wrapper DatastoreClient.getCoverageStore. -/
def DatastoreClient.getCoverageStore (workspace covStore : String) (main probe : FetchOutcome) : Except JsError (Option Json) :=
  DatastoreClient.getStore workspace covStore ("coveragestores") main probe

/-- Embeds the public wrapper DatastoreClient.getWmsStore. -/
def DatastoreClient.getWmsStore (workspace wmsStore : String) (main probe : FetchOutcome) : Except JsError (Option Json) :=
  DatastoreClient.getStore workspace wmsStore ("wmsstores") main probe

/-- Embeds the public wrapper DatastoreClient.getWmtsStore. -/
def DatastoreClient.getWmtsStore (workspace wmtsStore : String) (main probe : FetchOutcome) : Except JsError (Option Json) :=
  DatastoreClient.getStore workspace wmtsStore ("wmtsstores") main probe

/-- Embeds WorkspaceClient.create (POST workspaces): on status 409 throw the
specific already-exists GeoServerResponseError, on any other non-2xx status
throw a generic one carrying the response text, on success return the
response text. -/
def WorkspaceClient.create (name : String) (main : FetchOutcome) : Except JsError String :=
  match main with
  | FetchOutcome.netErr e => Except.error (JsError.other e)
  | FetchOutcome.resp r =>
    if r.ok then
      match r.text with
      | Except.ok t => Except.ok t
      | Except.error e => Except.error (JsError.other e)
    else
      match getGeoServerResponseText r with
      | Except.ok o =>
        if r.status == 409 then
          Except.error (mkGSError (some ("Unable to add workspace as it already exists")) o)
        else
          Except.error (mkGSError none o)
      | Except.error e => Except.error (JsError.other e)

/-- Embeds NamespaceClient.create (POST namespaces): on every non-2xx status,
including 409, throw the generic GeoServerResponseError carrying the response
text; on success return the response text. There is no switch on the status
code in this operation. -/
def NamespaceClient.create (pfx uri : String) (main : FetchOutcome) : Except JsError String :=
  match main with
  | FetchOutcome.netErr e => Except.error (JsError.other e)
  | FetchOutcome.resp r =>
    if r.ok then
      match r.text with
      | Except.ok t => Except.ok t
      | Except.error e => Except.error (JsError.other e)
    else
      match getGeoServerResponseText r with
      | Except.ok o => Except.error (mkGSError none o)
      | Except.error e => Except.error (JsError.other e)

/-- Embeds WorkspaceClient.delete (DELETE workspaces/name?recurse=..): the
status switch maps 400 to the not-empty message and 404 to the
does-not-exist message, with the generic default otherwise. -/
def WorkspaceClient.delete (name : String) (recurse : Bool) (main : FetchOutcome) : Except JsError Unit :=
  match main with
  | FetchOutcome.netErr e => Except.error (JsError.other e)
  | FetchOutcome.resp r =>
    if r.ok then Except.ok ()
    else
      match getGeoServerResponseText r with
      | Except.ok o =>
        if r.status == 400 then
          Except.error (mkGSError (some ("Workspace or related Namespace is not empty (and recurse not true)")) o)
        else if r.status == 404 then
          Except.error (mkGSError (some ("Workspace doesn\x27t exist")) o)
        else
          Except.error (mkGSError none o)
      | Except.error e => Except.error (JsError.other e)

/-- Embeds NamespaceClient.delete (DELETE namespaces/name): the status switch
maps 403 to the not-empty message, 404 to the does-not-exist message, 405 to
the protected-default message, and any other status to a
GeoServerResponseError whose message is the literal Response-not-recognized
text. -/
def NamespaceClient.delete (name : String) (main : FetchOutcome) : Except JsError Unit :=
  match main with
  | FetchOutcome.netErr e => Except.error (JsError.other e)
  | FetchOutcome.resp r =>
    if r.ok then Except.ok ()
    else
      match getGeoServerResponseText r with
      | Except.ok o =>
        if r.status == 403 then
          Except.error (mkGSError (some ("Namespace or related Workspace is not empty (and recurse not true)")) o)
        else if r.status == 404 then
          Except.error (mkGSError (some ("Namespace doesn\x27t exist")) o)
        else if r.status == 405 then
          Except.error (mkGSError (some ("Can\x27t delete default namespace")) o)
        else
          Except.error (mkGSError (some ("Response not recognized")) o)
      | Except.error e => Except.error (JsError.other e)

/-- UTF-8 bytes of one Unicode code point, each byte as a Nat below 256. -/
def utf8EncodeCodePoint (n : Nat) : List Nat :=
  if n < 128 then [n]
  else if n < 2048 then [192 + n / 64, 128 + n % 64]
  else if n < 65536 then [224 + n / 4096, 128 + (n / 64) % 64, 128 + n % 64]
  else [240 + n / 262144, 128 + (n / 4096) % 64, 128 + (n / 64) % 64, 128 + n % 64]

/-- UTF-8 bytes of a string, modelling what Buffer.from produces from it. -/
def utf8Bytes (s : String) : List Nat :=
  List.flatten (s.data.map (fun c => utf8EncodeCodePoint (Char.toNat c)))

/-- Digit lookup of the standard base64 alphabet. -/
def b64Digit (n : Nat) : Char :=
  List.getD (("ABCDEFGHIJKLMNOPQRSTUVWXYZabcdefghijklmnopqrstuvwxyz0123456789+/").data) n ('A')

/-- Base64 encoding of a byte list, three bytes per chunk with the usual
padding, modelling toString of a Buffer with the base64 argument. -/
def base64Chunks : List Nat → String
  | [] => ("")
  | [a] => String.mk [b64Digit (a / 4), b64Digit (a % 4 * 16), ('='), ('=')]
  | [a, b] => String.mk [b64Digit (a / 4), b64Digit (a % 4 * 16 + b / 16), b64Digit (b % 16 * 4), ('=')]
  | a :: b :: c :: rest =>
      String.mk [b64Digit (a / 4), b64Digit (a % 4 * 16 + b / 16), b64Digit (b % 16 * 4 + c / 64), b64Digit (c % 64)]
        ++ base64Chunks rest

/-- Base64 encoding of the UTF-8 bytes of a string, the composition the façade
constructor applies to the user-colon-password text. -/
def base64EncodeStr (s : String) : String :=
  base64Chunks (utf8Bytes s)

/-- JavaScript endsWith applied to the one-character suffix used by the façade
constructor: true exactly when the last character is the separator. -/
def endsWithSlash (s : String) : Bool :=
  s.data.getLast? == some ('/')

/-- Constructor-argument pair every resource client receives: the normalized
base URL and the encoded Authorization value. -/
structure ClientCtx where
  url : String
  auth : String
deriving DecidableEq

/-- Embeds the field state of a GeoServerRestClient instance: the shared
connection parameters plus the ten resource-client members. -/
structure GeoServerRestClient where
  url : String
  auth : String
  layers : ClientCtx
  styles : ClientCtx
  workspaces : ClientCtx
  namespaces : ClientCtx
  datastores : ClientCtx
  imagemosaics : ClientCtx
  security : ClientCtx
  settings : ClientCtx
  about : ClientCtx
  resetReload : ClientCtx

/-- Embeds the GeoServerRestClient constructor: normalize the URL to end with
the separator, encode the Basic Authorization value once, and construct each
of the ten resource clients from the same two values. No network request is
involved; the construction is a total function. -/
def GeoServerRestClient.make (url user password : String) : GeoServerRestClient :=
  let u := if endsWithSlash url then url else url ++ ("/")
  let a := ("Basic ") ++ base64EncodeStr (user ++ (":") ++ password)
  { url := u, auth := a
  , layers := ⟨u, a⟩, styles := ⟨u, a⟩, workspaces := ⟨u, a⟩, namespaces := ⟨u, a⟩
  , datastores := ⟨u, a⟩, imagemosaics := ⟨u, a⟩, security := ⟨u, a⟩
  , settings := ⟨u, a⟩, about := ⟨u, a⟩, resetReload := ⟨u, a⟩ }

/-- Model of a request descriptor as handed to fetch: verb, full URL and the
header list in source order. -/
structure Request where
  method : String
  url : String
  headers : List (String × String)
deriving DecidableEq

/-- Header lookup in a request, first match wins. -/
def Request.header (req : Request) (k : String) : Option String :=
  (req.headers.find? (fun p => p.1 == k)).map Prod.snd

/-- JavaScript or-fallback on an optional string argument: the right operand
is taken when the left one is undefined or empty (falsy). -/
def jsOrString (a : Option String) (b : String) : String :=
  match a with
  | none => b
  | some s => if s == ("") then b else s

/-- Embeds the request construction of DatastoreClient.createGeotiffFromFile:
stat the file for its byte size (statSync throws when the file is missing,
modelled through the size map), apply the title fallback, and build the PUT
request to the file.geotiff sub-path with the filename and coverageName query
parameters and the image/tiff content type plus the stringified byte size. -/
def DatastoreClient.createGeotiffRequest (url auth workspace coverageStore layerName : String)
    (layerTitle : Option String) (fileSizes : String → Option Nat) (filePath : String) : Except JsError Request :=
  let lyrTitle := jsOrString layerTitle layerName
  match fileSizes filePath with
  | none => Except.error (JsError.other (("ENOENT: no such file or directory, stat ") ++ filePath))
  | some n =>
    Except.ok
      { method := ("PUT")
      , url := url ++ ("workspaces/") ++ workspace ++ ("/coveragestores/") ++ coverageStore
          ++ ("/file.geotiff") ++ ("?filename=") ++ lyrTitle ++ ("&coverageName=") ++ layerName
      , headers := [(("Authorization"), auth), (("Content-Type"), ("image/tiff")), (("Content-length"), Nat.repr n)] }

/-- One entry of a connection-parameter association list, an object with the
at-key field and the dollar field. -/
def pgEntry (k : String) (v : Json) : Json :=
  Json.obj [(("@key"), Json.str k), (("$"), v)]

/-- Embeds the body literal of DatastoreClient.createPostgisStore, with the
optional exposePk argument modelled as an Option and the or-false fallback of
the source applied to it. -/
def DatastoreClient.createPostgisStoreBody (workspace namespaceUri dataStore pgHost : String)
    (pgPort : Int) (pgUser pgPassword pgSchema pgDb : String) (exposePk : Option Bool) : Json :=
  Json.obj
    [ (("dataStore"), Json.obj
      [ (("name"), Json.str dataStore)
      , (("type"), Json.str ("PostGIS"))
      , (("enabled"), Json.bool true)
      , (("workspace"), Json.obj [(("name"), Json.str workspace)])
      , (("connectionParameters"), Json.obj
        [ (("entry"), Json.arr
          [ pgEntry ("dbtype") (Json.str ("postgis"))
          , pgEntry ("schema") (Json.str pgSchema)
          , pgEntry ("database") (Json.str pgDb)
          , pgEntry ("host") (Json.str pgHost)
          , pgEntry ("port") (Json.num pgPort)
          , pgEntry ("passwd") (Json.str pgPassword)
          , pgEntry ("namespace") (Json.str namespaceUri)
          , pgEntry ("user") (Json.str pgUser)
          , pgEntry ("Expose primary keys") (Json.bool (exposePk.getD false))
          ]) ]) ]) ]

/-- Pure key lookup in a JSON object, none on other shapes. -/
def Json.lookup (j : Json) (k : String) : Option Json :=
  match j with
  | Json.obj fields => (fields.find? (fun p => p.1 == k)).map Prod.snd
  | _ => none

/-- Type-discriminant string of a data-store creation body. -/
def storeTypeOf (body : Json) : Option Json :=
  (body.lookup ("dataStore")).bind (fun ds => ds.lookup ("type"))

/-- Connection-parameter entry list of a data-store creation body. -/
def connEntriesOf (body : Json) : List Json :=
  match (body.lookup ("dataStore")).bind
      (fun ds => (ds.lookup ("connectionParameters")).bind
        (fun cp => cp.lookup ("entry"))) with
  | some (Json.arr xs) => xs
  | _ => []

/-- Key of one connection-parameter entry. -/
def entryKeyOf (e : Json) : Option String :=
  match e.lookup ("@key") with
  | some (Json.str s) => some s
  | _ => none

/-- Value of one connection-parameter entry. -/
def entryValOf (e : Json) : Option Json :=
  e.lookup ("$")

/-- JavaScript property read on a value known not to be undefined: reading on
null throws a TypeError, reading on an object looks the key up (undefined when
absent), reading on any other primitive yields undefined. -/
def jsGetProp (j : Json) (k : String) : Except JsError (Option Json) :=
  match j with
  | Json.null => Except.error (JsError.typeError (("Cannot read properties of null (reading ") ++ k ++ (")")))
  | Json.obj fields => Except.ok ((fields.find? (fun p => p.1 == k)).map Prod.snd)
  | _ => Except.ok none

/-- JavaScript property read where the base may be undefined, which throws a
TypeError. -/
def jsGetPropOpt (v : Option Json) (k : String) : Except JsError (Option Json) :=
  match v with
  | none => Except.error (JsError.typeError (("Cannot read properties of undefined (reading ") ++ k ++ (")")))
  | some j => jsGetProp j k

/-- JavaScript truthiness of a possibly-undefined value. -/
def jsTruthy : Option Json → Bool
  | none => false
  | some j => j.truthy

/-- Functional update of one key of a JSON object; other shapes are returned
unchanged. -/
def Json.setProp (j : Json) (k : String) (v : Json) : Json :=
  match j with
  | Json.obj fields =>
    if (fields.find? (fun p => p.1 == k)).isSome then
      Json.obj (fields.map (fun p => if p.1 == k then (p.1, v) else p))
    else
      Json.obj (fields ++ [(k, v)])
  | _ => j

/-- JavaScript property assignment in strict mode: assigning through undefined
or null throws a TypeError, assigning on a primitive throws as well, and
assigning on an object updates it. -/
def jsSetProp (target : Option Json) (k : String) (v : Json) : Except JsError Json :=
  match target with
  | none => Except.error (JsError.typeError (("Cannot set properties of undefined (setting ") ++ k ++ (")")))
  | some Json.null => Except.error (JsError.typeError (("Cannot set properties of null (setting ") ++ k ++ (")")))
  | some (Json.obj fields) => Except.ok ((Json.obj fields).setProp k v)
  | some _ => Except.error (JsError.typeError (("Cannot create property ") ++ k))

/-- Result of the part of SettingsClient.updateProxyBaseUrl that follows a
successful getSettings: either the early return with false, or the PUT of the
updated settings object. -/
inductive ProxyUpdateStep where
  | returnedFalse : ProxyUpdateStep
  | putSettings (updated : Json) : ProxyUpdateStep

/-- Embeds SettingsClient.updateProxyBaseUrl after getSettings resolved with
settingsJson. The guard is the literal conjunction of the source: the negation
of settingsJson.global, and-combined with the negation of
settingsJson.global.settings, where the right operand is evaluated exactly
when the left one is true (so a missing global field makes the guard itself
read a property of undefined). When the guard does not return false, the
proxyBaseUrl property is assigned on settingsJson.global.settings and the
mutated object is handed to updateSettings. -/
def SettingsClient.updateProxyBaseUrl (settingsJson : Json) (proxyBaseUrl : String) : Except JsError ProxyUpdateStep :=
  match jsGetProp settingsJson ("global") with
  | Except.error e => Except.error e
  | Except.ok g =>
    let guardResult : Except JsError Bool :=
      if jsTruthy g then Except.ok false
      else
        match jsGetPropOpt g ("settings") with
        | Except.error e => Except.error e
        | Except.ok s => Except.ok (!(jsTruthy s))
    match guardResult with
    | Except.error e => Except.error e
    | Except.ok true => Except.ok ProxyUpdateStep.returnedFalse
    | Except.ok false =>
      match jsGetProp settingsJson ("global") with
      | Except.error e => Except.error e
      | Except.ok g2 =>
        match jsGetPropOpt g2 ("settings") with
        | Except.error e => Except.error e
        | Except.ok s2 =>
          match jsSetProp s2 ("proxyBaseUrl") (Json.str proxyBaseUrl) with
          | Except.error e => Except.error e
          | Except.ok s3 =>
            match g2 with
            | some gj =>
              Except.ok (ProxyUpdateStep.putSettings
                (settingsJson.setProp ("global") (gj.setProp ("settings") s3)))
            | none => Except.error (JsError.typeError (("Cannot read properties of undefined (reading ") ++ ("settings") ++ (")")))

/-- Helper: the existence probe always resolves, whatever the transport did. -/
theorem checkExists_total (f : FetchOutcome) : ∃ b, AboutClient.checkExists f = Except.ok b := by
  unfold AboutClient.checkExists
  cases AboutClient.getVersion f with
  | ok v => exact ⟨Json.truthy v, rfl⟩
  | error e => exact ⟨false, rfl⟩

/-- C8: getGeoServerResponseText returns the promise of response.text without
awaiting it, so a rejected body read propagates to the caller as a rejection
instead of producing the undefined result of the catch branch, and a
classifying caller such as WorkspaceClient.create then rejects with the
non-classified error. -/
theorem response_text_rejection_propagates
    (r : HttpResponse) (e : String) (h : r.text = Except.error e) :
    getGeoServerResponseText r = Except.error e
    ∧ (∀ s : HttpResponse, getGeoServerResponseText s ≠ Except.ok none)
    ∧ (r.ok = false → ∀ name, WorkspaceClient.create name (FetchOutcome.resp r) = Except.error (JsError.other e)) := by
  refine ⟨by simp [getGeoServerResponseText, h], ?_, ?_⟩
  · intro s hs
    unfold getGeoServerResponseText at hs
    cases hx : s.text <;> rw [hx] at hs <;> simp at hs
  · intro hok name
    simp [WorkspaceClient.create, hok, getGeoServerResponseText, h]

/-- C8 witness: the theorem applied to a concrete 500 response whose body
reader rejects. -/
theorem response_text_rejection_propagates_witness :
    getGeoServerResponseText ⟨500, Except.error ("boom"), Except.error ("x")⟩ = Except.error ("boom")
    ∧ WorkspaceClient.create ("ws") (FetchOutcome.resp ⟨500, Except.error ("boom"), Except.error ("x")⟩)
        = Except.error (JsError.other ("boom")) := by
  refine ⟨(response_text_rejection_propagates ⟨500, Except.error ("boom"), Except.error ("x")⟩ ("boom") rfl).1, ?_⟩
  exact (response_text_rejection_propagates ⟨500, Except.error ("boom"), Except.error ("x")⟩ ("boom") rfl).2.2 (by decide) ("ws")

/-- C4: the existence probe never rejects for any transport outcome and
resolves with true exactly when the version request succeeds with a truthy
decoded payload, while getVersion on the same endpoint rejects with the
classified failure on a non-2xx status. -/
theorem about_exists_never_raises
    (f : FetchOutcome) (r : HttpResponse) (t : String)
    (hok : r.ok = false) (ht : r.text = Except.ok t) :
    (∃ b, AboutClient.checkExists f = Except.ok b)
    ∧ (AboutClient.checkExists f = Except.ok true ↔
        ∃ v, AboutClient.getVersion f = Except.ok v ∧ Json.truthy v = true)
    ∧ AboutClient.getVersion (FetchOutcome.resp r) = Except.error (mkGSError none (some t)) := by
  refine ⟨checkExists_total f, ?_, ?_⟩
  · unfold AboutClient.checkExists
    cases h : AboutClient.getVersion f with
    | ok v =>
      constructor
      · intro hx
        simp only [Except.ok.injEq] at hx
        exact ⟨v, rfl, hx⟩
      · rintro ⟨v', hv', ht'⟩
        cases hv'
        simp [ht']
    | error e =>
      constructor
      · intro hx
        simp at hx
      · rintro ⟨v', hv', ht'⟩
        cases hv'
  · simp [AboutClient.getVersion, hok, getGeoServerResponseText, ht]

/-- C4 witness: the theorem applied to a reachable and to a non-2xx outcome. -/
theorem about_exists_never_raises_witness :
    AboutClient.checkExists (FetchOutcome.netErr ("down")) = Except.ok false
    ∧ AboutClient.getVersion (FetchOutcome.resp ⟨503, Except.ok ("oops"), Except.error ("x")⟩)
        = Except.error (mkGSError none (some ("oops"))) := by
  constructor
  · rcases (about_exists_never_raises (FetchOutcome.netErr ("down"))
      ⟨503, Except.ok ("oops"), Except.error ("x")⟩ ("oops") (by decide) rfl).1 with ⟨b, hb⟩
    cases b with
    | false => exact hb
    | true =>
      have := (about_exists_never_raises (FetchOutcome.netErr ("down"))
        ⟨503, Except.ok ("oops"), Except.error ("x")⟩ ("oops") (by decide) rfl).2.1.mp hb
      rcases this with ⟨v, hv, _⟩
      cases hv
  · exact (about_exists_never_raises (FetchOutcome.netErr ("down"))
      ⟨503, Except.ok ("oops"), Except.error ("x")⟩ ("oops") (by decide) rfl).2.2

/-- C1: for WorkspaceClient.get, NamespaceClient.get, DatastoreClient.getStore
and its four public wrappers, a non-success GET status makes the operation
consult the existence probe: a reachable server turns the outcome into the
undefined success with no error, an unreachable server into the raised
GeoServerResponseError carrying the original response text. -/
theorem single_item_lookup_probe_classification
    (name workspace storeName storeType : String)
    (r : HttpResponse) (probe : FetchOutcome) (t : String)
    (hok : r.ok = false) (ht : r.text = Except.ok t) :
    (AboutClient.checkExists probe = Except.ok true →
      WorkspaceClient.get name (FetchOutcome.resp r) probe = Except.ok none
      ∧ NamespaceClient.get name (FetchOutcome.resp r) probe = Except.ok none
      ∧ DatastoreClient.getStore workspace storeName storeType (FetchOutcome.resp r) probe = Except.ok none
      ∧ DatastoreClient.getDataStore workspace storeName (FetchOutcome.resp r) probe = Except.ok none
      ∧ DatastoreClient.getCoverageStore workspace storeName (FetchOutcome.resp r) probe = Except.ok none
      ∧ DatastoreClient.getWmsStore workspace storeName (FetchOutcome.resp r) probe = Except.ok none
      ∧ DatastoreClient.getWmtsStore workspace storeName (FetchOutcome.resp r) probe = Except.ok none)
    ∧ (AboutClient.checkExists probe = Except.ok false →
      WorkspaceClient.get name (FetchOutcome.resp r) probe = Except.error (mkGSError none (some t))
      ∧ NamespaceClient.get name (FetchOutcome.resp r) probe = Except.error (mkGSError none (some t))
      ∧ DatastoreClient.getStore workspace storeName storeType (FetchOutcome.resp r) probe = Except.error (mkGSError none (some t))
      ∧ DatastoreClient.getDataStore workspace storeName (FetchOutcome.resp r) probe = Except.error (mkGSError none (some t))
      ∧ DatastoreClient.getCoverageStore workspace storeName (FetchOutcome.resp r) probe = Except.error (mkGSError none (some t))
      ∧ DatastoreClient.getWmsStore workspace storeName (FetchOutcome.resp r) probe = Except.error (mkGSError none (some t))
      ∧ DatastoreClient.getWmtsStore workspace storeName (FetchOutcome.resp r) probe = Except.error (mkGSError none (some t))) := by
  constructor <;> intro hex <;>
    refine ⟨?_, ?_, ?_, ?_, ?_, ?_, ?_⟩ <;>
      simp [WorkspaceClient.get, NamespaceClient.get, DatastoreClient.getStore,
        DatastoreClient.getDataStore, DatastoreClient.getCoverageStore,
        DatastoreClient.getWmsStore, DatastoreClient.getWmtsStore,
        hok, hex, getGeoServerResponseText, ht]

/-- C1 witness: the theorem applied to a concrete 404 response, once with a
reachable probe outcome and once with an unreachable one. -/
theorem single_item_lookup_probe_classification_witness :
    WorkspaceClient.get ("ws") (FetchOutcome.resp ⟨404, Except.ok ("nf"), Except.error ("x")⟩)
        (FetchOutcome.resp ⟨200, Except.ok (""), Except.ok (Json.obj [])⟩) = Except.ok none
    ∧ DatastoreClient.getDataStore ("w") ("s") (FetchOutcome.resp ⟨404, Except.ok ("nf"), Except.error ("x")⟩)
        (FetchOutcome.netErr ("down")) = Except.error (mkGSError none (some ("nf"))) := by
  constructor
  · exact ((single_item_lookup_probe_classification ("ws") ("w") ("s") ("datastores")
      ⟨404, Except.ok ("nf"), Except.error ("x")⟩
      (FetchOutcome.resp ⟨200, Except.ok (""), Except.ok (Json.obj [])⟩) ("nf")
      (by decide) rfl).1 rfl).1
  · exact ((single_item_lookup_probe_classification ("ws") ("w") ("s") ("datastores")
      ⟨404, Except.ok ("nf"), Except.error ("x")⟩
      (FetchOutcome.netErr ("down")) ("nf")
      (by decide) rfl).2 rfl).2.2.2.1

/-- C2 counterexample: a 409 response makes NamespaceClient.create reject with
the default-message GeoServerResponseError, not with a specific already-exists
conflict message. -/
theorem namespace_create_409_generic_failure :
    NamespaceClient.create ("p") ("u") (FetchOutcome.resp ⟨409, Except.ok ("dup"), Except.error ("x")⟩)
      = Except.error (JsError.geoserver ("GeoServer Response Error") (some ("dup")))
    ∧ NamespaceClient.create ("p") ("u") (FetchOutcome.resp ⟨409, Except.ok ("dup"), Except.error ("x")⟩)
      ≠ Except.error (JsError.geoserver ("Unable to add namespace as it already exists") (some ("dup"))) := by
  constructor
  · rfl
  · intro h
    rw [show NamespaceClient.create ("p") ("u") (FetchOutcome.resp ⟨409, Except.ok ("dup"), Except.error ("x")⟩)
      = Except.error (JsError.geoserver ("GeoServer Response Error") (some ("dup"))) from rfl] at h
    simp at h

/-- C2 amended: WorkspaceClient.create maps status 409 to the specific
already-exists failure and every other non-2xx status to the generic
classified failure carrying the response text, while NamespaceClient.create
raises the generic classified failure for every non-2xx status including 409;
on success both return the response text. -/
theorem create_status_classification
    (name pfx uri : String) (r rgood : HttpResponse) (t tg : String)
    (hok : r.ok = false) (ht : r.text = Except.ok t)
    (hg : rgood.ok = true) (htg : rgood.text = Except.ok tg) :
    (r.status = 409 →
      WorkspaceClient.create name (FetchOutcome.resp r)
        = Except.error (mkGSError (some ("Unable to add workspace as it already exists")) (some t)))
    ∧ (r.status ≠ 409 →
      WorkspaceClient.create name (FetchOutcome.resp r) = Except.error (mkGSError none (some t)))
    ∧ NamespaceClient.create pfx uri (FetchOutcome.resp r) = Except.error (mkGSError none (some t))
    ∧ WorkspaceClient.create name (FetchOutcome.resp rgood) = Except.ok tg
    ∧ NamespaceClient.create pfx uri (FetchOutcome.resp rgood) = Except.ok tg := by
  refine ⟨?_, ?_, ?_, ?_, ?_⟩
  · intro h
    simp [WorkspaceClient.create, hok, getGeoServerResponseText, ht, h]
  · intro h
    simp [WorkspaceClient.create, hok, getGeoServerResponseText, ht, h]
  · simp [NamespaceClient.create, hok, getGeoServerResponseText, ht]
  · simp [WorkspaceClient.create, hg, htg]
  · simp [NamespaceClient.create, hg, htg]

/-- C2 witness: the amended theorem applied to a concrete 409 response, a
concrete 500 response and a concrete 201 response. -/
theorem create_status_classification_witness :
    WorkspaceClient.create ("w1") (FetchOutcome.resp ⟨409, Except.ok ("dup"), Except.error ("x")⟩)
      = Except.error (mkGSError (some ("Unable to add workspace as it already exists")) (some ("dup")))
    ∧ WorkspaceClient.create ("w1") (FetchOutcome.resp ⟨500, Except.ok ("err"), Except.error ("x")⟩)
      = Except.error (mkGSError none (some ("err")))
    ∧ NamespaceClient.create ("p") ("u") (FetchOutcome.resp ⟨409, Except.ok ("dup"), Except.error ("x")⟩)
      = Except.error (mkGSError none (some ("dup")))
    ∧ WorkspaceClient.create ("w1") (FetchOutcome.resp ⟨201, Except.ok ("w1"), Except.error ("x")⟩)
      = Except.ok ("w1") := by
  refine ⟨?_, ?_, ?_, ?_⟩
  · exact (create_status_classification ("w1") ("p") ("u")
      ⟨409, Except.ok ("dup"), Except.error ("x")⟩ ⟨201, Except.ok ("w1"), Except.error ("x")⟩
      ("dup") ("w1") (by decide) rfl (by decide) rfl).1 rfl
  · exact (create_status_classification ("w1") ("p") ("u")
      ⟨500, Except.ok ("err"), Except.error ("x")⟩ ⟨201, Except.ok ("w1"), Except.error ("x")⟩
      ("err") ("w1") (by decide) rfl (by decide) rfl).2.1 (by decide)
  · exact (create_status_classification ("w1") ("p") ("u")
      ⟨409, Except.ok ("dup"), Except.error ("x")⟩ ⟨201, Except.ok ("w1"), Except.error ("x")⟩
      ("dup") ("w1") (by decide) rfl (by decide) rfl).2.2.1
  · exact (create_status_classification ("w1") ("p") ("u")
      ⟨409, Except.ok ("dup"), Except.error ("x")⟩ ⟨201, Except.ok ("w1"), Except.error ("x")⟩
      ("dup") ("w1") (by decide) rfl (by decide) rfl).2.2.2.1

/-- C3: delete failures are classified by the family-specific status tables:
WorkspaceClient.delete maps 400 to the not-empty failure and 404 to the
does-not-exist failure, NamespaceClient.delete maps 403 to not-empty, 404 to
does-not-exist and 405 to the protected-default failure, and every
unrecognized status yields a classified failure carrying the response text. -/
theorem delete_status_classification
    (name : String) (recurse : Bool) (r : HttpResponse) (t : String)
    (hok : r.ok = false) (ht : r.text = Except.ok t) :
    (r.status = 400 → WorkspaceClient.delete name recurse (FetchOutcome.resp r)
        = Except.error (mkGSError (some ("Workspace or related Namespace is not empty (and recurse not true)")) (some t)))
    ∧ (r.status = 404 → WorkspaceClient.delete name recurse (FetchOutcome.resp r)
        = Except.error (mkGSError (some ("Workspace doesn\x27t exist")) (some t)))
    ∧ (r.status ≠ 400 → r.status ≠ 404 → WorkspaceClient.delete name recurse (FetchOutcome.resp r)
        = Except.error (mkGSError none (some t)))
    ∧ (r.status = 403 → NamespaceClient.delete name (FetchOutcome.resp r)
        = Except.error (mkGSError (some ("Namespace or related Workspace is not empty (and recurse not true)")) (some t)))
    ∧ (r.status = 404 → NamespaceClient.delete name (FetchOutcome.resp r)
        = Except.error (mkGSError (some ("Namespace doesn\x27t exist")) (some t)))
    ∧ (r.status = 405 → NamespaceClient.delete name (FetchOutcome.resp r)
        = Except.error (mkGSError (some ("Can\x27t delete default namespace")) (some t)))
    ∧ (r.status ≠ 403 → r.status ≠ 404 → r.status ≠ 405 → NamespaceClient.delete name (FetchOutcome.resp r)
        = Except.error (mkGSError (some ("Response not recognized")) (some t))) := by
  refine ⟨?_, ?_, ?_, ?_, ?_, ?_, ?_⟩ <;>
    intros <;>
    simp_all [WorkspaceClient.delete, NamespaceClient.delete, hok, getGeoServerResponseText, ht]

/-- C3 witness: the theorem applied to concrete 400, 405 and 418 responses. -/
theorem delete_status_classification_witness :
    WorkspaceClient.delete ("w1") true (FetchOutcome.resp ⟨400, Except.ok ("full"), Except.error ("x")⟩)
      = Except.error (mkGSError (some ("Workspace or related Namespace is not empty (and recurse not true)")) (some ("full")))
    ∧ NamespaceClient.delete ("n1") (FetchOutcome.resp ⟨405, Except.ok ("no"), Except.error ("x")⟩)
      = Except.error (mkGSError (some ("Can\x27t delete default namespace")) (some ("no")))
    ∧ NamespaceClient.delete ("n1") (FetchOutcome.resp ⟨418, Except.ok ("tea"), Except.error ("x")⟩)
      = Except.error (mkGSError (some ("Response not recognized")) (some ("tea"))) := by
  refine ⟨?_, ?_, ?_⟩
  · exact (delete_status_classification ("w1") true
      ⟨400, Except.ok ("full"), Except.error ("x")⟩ ("full") (by decide) rfl).1 rfl
  · exact (delete_status_classification ("n1") true
      ⟨405, Except.ok ("no"), Except.error ("x")⟩ ("no") (by decide) rfl).2.2.2.2.2.1 rfl
  · exact (delete_status_classification ("n1") true
      ⟨418, Except.ok ("tea"), Except.error ("x")⟩ ("tea") (by decide) rfl).2.2.2.2.2.2
        (by decide) (by decide) (by decide)

/-- Helper: appending the separator makes endsWithSlash true. -/
theorem endsWithSlash_append_slash (s : String) : endsWithSlash (s ++ ("/")) = true := by
  simp [endsWithSlash, String.data_append]

/-- C5: the façade constructor normalizes the base URL to end with the path
separator, appending one exactly when the input lacks it, computes the Basic
authorization value from the base64 encoding of the user-colon-password text,
and hands the identical url-auth pair to each of the ten resource clients; the
construction is a total function of its three string arguments, so it issues
no request and raises no error. -/
theorem facade_constructor_contract (url user password : String) :
    ∀ c, c = GeoServerRestClient.make url user password →
    endsWithSlash c.url = true
    ∧ (endsWithSlash url = true → c.url = url)
    ∧ (endsWithSlash url = false → c.url = url ++ ("/"))
    ∧ c.auth = ("Basic ") ++ base64EncodeStr (user ++ (":") ++ password)
    ∧ c.layers = ⟨c.url, c.auth⟩
    ∧ c.styles = ⟨c.url, c.auth⟩
    ∧ c.workspaces = ⟨c.url, c.auth⟩
    ∧ c.namespaces = ⟨c.url, c.auth⟩
    ∧ c.datastores = ⟨c.url, c.auth⟩
    ∧ c.imagemosaics = ⟨c.url, c.auth⟩
    ∧ c.security = ⟨c.url, c.auth⟩
    ∧ c.settings = ⟨c.url, c.auth⟩
    ∧ c.about = ⟨c.url, c.auth⟩
    ∧ c.resetReload = ⟨c.url, c.auth⟩ := by
  rintro c rfl
  refine ⟨?_, ?_, ?_, rfl, rfl, rfl, rfl, rfl, rfl, rfl, rfl, rfl, rfl, rfl⟩
  · show endsWithSlash (if endsWithSlash url then url else url ++ ("/")) = true
    cases h : endsWithSlash url with
    | true => simp [h]
    | false => simpa [h] using endsWithSlash_append_slash url
  · intro h
    show (if endsWithSlash url then url else url ++ ("/")) = url
    simp [h]
  · intro h
    show (if endsWithSlash url then url else url ++ ("/")) = url ++ ("/")
    simp [h]

/-- C5 witness: the theorem applied to a concrete URL without the trailing
separator, together with an evaluation of the encoder on concrete
credentials. -/
theorem facade_constructor_contract_witness :
    (GeoServerRestClient.make ("http://localhost:8080/geoserver/rest") ("admin") ("geoserver")).url
      = ("http://localhost:8080/geoserver/rest") ++ ("/")
    ∧ (GeoServerRestClient.make ("http://localhost:8080/geoserver/rest") ("admin") ("geoserver")).auth
      = ("Basic ") ++ base64EncodeStr (("admin") ++ (":") ++ ("geoserver"))
    ∧ (GeoServerRestClient.make ("http://localhost:8080/geoserver/rest") ("admin") ("geoserver")).workspaces.auth
      = ("Basic YWRtaW46Z2Vvc2VydmVy") := by
  have hc := facade_constructor_contract ("http://localhost:8080/geoserver/rest") ("admin") ("geoserver")
    (GeoServerRestClient.make ("http://localhost:8080/geoserver/rest") ("admin") ("geoserver")) rfl
  refine ⟨hc.2.2.1 (by decide), hc.2.2.2.1, ?_⟩
  have h := hc.2.2.2.2.2.2.1
  rw [h, hc.2.2.2.1]
  decide

/-- C6: with the exposePk argument omitted, the PostGIS creation body carries
the PostGIS type discriminant and exactly nine connection-parameter entries in
source order, the last being the expose-primary-keys entry with its value
defaulted to false. -/
theorem postgis_store_body_nine_entries
    (workspace namespaceUri dataStore pgHost : String) (pgPort : Int)
    (pgUser pgPassword pgSchema pgDb : String) :
    ∀ body, body = DatastoreClient.createPostgisStoreBody workspace namespaceUri dataStore pgHost pgPort pgUser pgPassword pgSchema pgDb none →
    storeTypeOf body = some (Json.str ("PostGIS"))
    ∧ (connEntriesOf body).length = 9
    ∧ (connEntriesOf body).map entryKeyOf
      = [some ("dbtype"), some ("schema"), some ("database"), some ("host"),
         some ("port"), some ("passwd"), some ("namespace"), some ("user"),
         some ("Expose primary keys")]
    ∧ ((connEntriesOf body).getLast?).map entryValOf = some (some (Json.bool false)) := by
  rintro body rfl
  exact ⟨rfl, rfl, rfl, rfl⟩

/-- C6 witness: the theorem applied to the concrete arguments of the design
document's testable property, host h, port 5432 and the rest. -/
theorem postgis_store_body_nine_entries_witness :
    (connEntriesOf (DatastoreClient.createPostgisStoreBody ("ws") ("ns") ("store") ("h") 5432 ("u") ("p") ("s") ("d") none)).length = 9
    ∧ ((connEntriesOf (DatastoreClient.createPostgisStoreBody ("ws") ("ns") ("store") ("h") 5432 ("u") ("p") ("s") ("d") none)).getLast?).map entryValOf
      = some (some (Json.bool false)) := by
  have h := postgis_store_body_nine_entries ("ws") ("ns") ("store") ("h") 5432 ("u") ("p") ("s") ("d")
    (DatastoreClient.createPostgisStoreBody ("ws") ("ns") ("store") ("h") 5432 ("u") ("p") ("s") ("d") none) rfl
  exact ⟨h.2.1, h.2.2.2⟩

/-- C7: the GeoTIFF upload request is a PUT to the file.geotiff sub-path whose
content type is the TIFF MIME type, whose content-length value is the
stringified byte size the filesystem reports for the source file, and whose
query string carries the filename and coverageName parameters naming the
destination. -/
theorem geotiff_request_contract
    (url auth workspace coverageStore layerName : String) (layerTitle : Option String)
    (fileSizes : String → Option Nat) (filePath : String) (n : Nat)
    (hf : fileSizes filePath = some n) :
    ∃ req, DatastoreClient.createGeotiffRequest url auth workspace coverageStore layerName layerTitle fileSizes filePath = Except.ok req
      ∧ req.method = ("PUT")
      ∧ req.header ("Content-Type") = some ("image/tiff")
      ∧ req.header ("Content-length") = some (Nat.repr n)
      ∧ req.url = url ++ ("workspaces/") ++ workspace ++ ("/coveragestores/") ++ coverageStore
          ++ ("/file.geotiff") ++ ("?filename=") ++ jsOrString layerTitle layerName
          ++ ("&coverageName=") ++ layerName := by
  unfold DatastoreClient.createGeotiffRequest
  rw [hf]
  exact ⟨_, rfl, rfl, rfl, rfl, rfl⟩

/-- C7 witness: the theorem applied to a concrete size map and file path. -/
theorem geotiff_request_contract_witness :
    ∃ req, DatastoreClient.createGeotiffRequest ("http://gs/") ("Basic x") ("w") ("cs") ("lyr")
        (some ("title")) (fun p => if p == ("/data/a.tif") then some 42 else none) ("/data/a.tif")
        = Except.ok req
      ∧ req.header ("Content-Type") = some ("image/tiff")
      ∧ req.header ("Content-length") = some (Nat.repr 42) := by
  rcases geotiff_request_contract ("http://gs/") ("Basic x") ("w") ("cs") ("lyr")
      (some ("title")) (fun p => if p == ("/data/a.tif") then some 42 else none) ("/data/a.tif") 42
      (by decide) with ⟨req, h1, h2, h3, h4, h5⟩
  exact ⟨req, h1, h3, h4⟩

/-- C10: an absent or empty layerTitle makes the filename query parameter fall
back to layerName, leaving the request identical to the one built with the
title set to layerName, while the coverageName parameter always equals
layerName and the content type never depends on layerTitle. -/
theorem geotiff_title_fallback
    (url auth workspace coverageStore layerName : String)
    (fileSizes : String → Option Nat) (filePath : String) (n : Nat)
    (hf : fileSizes filePath = some n) :
    (∀ layerTitle, layerTitle = none ∨ layerTitle = some ("") →
      DatastoreClient.createGeotiffRequest url auth workspace coverageStore layerName layerTitle fileSizes filePath
        = DatastoreClient.createGeotiffRequest url auth workspace coverageStore layerName (some layerName) fileSizes filePath)
    ∧ (∀ layerTitle, ∃ req,
        DatastoreClient.createGeotiffRequest url auth workspace coverageStore layerName layerTitle fileSizes filePath = Except.ok req
        ∧ (∃ pre, req.url = pre ++ ("&coverageName=") ++ layerName)
        ∧ req.header ("Content-Type") = some ("image/tiff")) := by
  constructor
  · rintro layerTitle (rfl | rfl) <;>
      simp [DatastoreClient.createGeotiffRequest, jsOrString]
  · intro layerTitle
    unfold DatastoreClient.createGeotiffRequest
    rw [hf]
    exact ⟨_, rfl, ⟨_, rfl⟩, rfl⟩

/-- C10 witness: the theorem applied to concrete arguments, showing the
fallback request for the empty title. -/
theorem geotiff_title_fallback_witness :
    DatastoreClient.createGeotiffRequest ("http://gs/") ("Basic x") ("w") ("cs") ("lyr")
        (some ("")) (fun p => some 7) ("/data/a.tif")
      = DatastoreClient.createGeotiffRequest ("http://gs/") ("Basic x") ("w") ("cs") ("lyr")
        (some ("lyr")) (fun p => some 7) ("/data/a.tif") := by
  exact (geotiff_title_fallback ("http://gs/") ("Basic x") ("w") ("cs") ("lyr")
      (fun p => some 7) ("/data/a.tif") 7 rfl).1 (some ("")) (Or.inr rfl)

/-- C9: the malformed-settings guard of updateProxyBaseUrl never produces its
early false return: when the settings object lacks the global field, the guard
itself throws a TypeError while reading settings on undefined, and when the
global field holds an object that lacks the settings field, the guard passes
and the subsequent property assignment throws a TypeError instead. -/
theorem update_proxy_guard_never_returns_false
    (fields : List (String × Json)) (p : String)
    (hng : fields.find? (fun q => q.1 == ("global")) = none)
    (gf : List (String × Json))
    (hns : gf.find? (fun q => q.1 == ("settings")) = none) :
    (∃ m, SettingsClient.updateProxyBaseUrl (Json.obj fields) p
        = Except.error (JsError.typeError m))
    ∧ SettingsClient.updateProxyBaseUrl (Json.obj fields) p
        ≠ Except.ok ProxyUpdateStep.returnedFalse
    ∧ (∃ m, SettingsClient.updateProxyBaseUrl (Json.obj [(("global"), Json.obj gf)]) p
        = Except.error (JsError.typeError m))
    ∧ SettingsClient.updateProxyBaseUrl (Json.obj [(("global"), Json.obj gf)]) p
        ≠ Except.ok ProxyUpdateStep.returnedFalse := by
  have h1 : SettingsClient.updateProxyBaseUrl (Json.obj fields) p
      = Except.error (JsError.typeError (("Cannot read properties of undefined (reading ") ++ ("settings") ++ (")"))) := by
    simp [SettingsClient.updateProxyBaseUrl, jsGetProp, hng, jsTruthy, jsGetPropOpt]
  have h2 : SettingsClient.updateProxyBaseUrl (Json.obj [(("global"), Json.obj gf)]) p
      = Except.error (JsError.typeError (("Cannot set properties of undefined (setting ") ++ ("proxyBaseUrl") ++ (")"))) := by
    simp [SettingsClient.updateProxyBaseUrl, jsGetProp, jsTruthy, Json.truthy,
      jsGetPropOpt, hns, jsSetProp, List.find?]
  refine ⟨⟨_, h1⟩, ?_, ⟨_, h2⟩, ?_⟩
  · rw [h1]
    simp
  · rw [h2]
    simp

/-- C9 witness: the theorem applied to two concrete malformed settings
objects, one without the global field and one whose global object lacks the
settings field. -/
theorem update_proxy_guard_never_returns_false_witness :
    (∃ m, SettingsClient.updateProxyBaseUrl (Json.obj [(("other"), Json.null)]) ("http://proxy")
        = Except.error (JsError.typeError m))
    ∧ (∃ m, SettingsClient.updateProxyBaseUrl (Json.obj [(("global"), Json.obj [(("contact"), Json.null)])]) ("http://proxy")
        = Except.error (JsError.typeError m)) := by
  refine ⟨?_, ?_⟩
  · exact (update_proxy_guard_never_returns_false [(("other"), Json.null)] ("http://proxy")
      rfl [(("contact"), Json.null)] rfl).1
  · exact (update_proxy_guard_never_returns_false [(("other"), Json.null)] ("http://proxy")
      rfl [(("contact"), Json.null)] rfl).2.2.1
